import Mathlib

/-!
Verification of the service-invoker subsystem of taurus-pro-consul
(`invoker.go`: `ServiceInvoker`, `Call`, `CallJSON`, `containsAll`).

The registry lookup (`client.GetHealthyServices`) and the HTTP transport
(`httpClient.Do`) are external collaborators; they enter the embedding as
explicit arguments of `Call`: the lookup as the snapshot it returns for
this invocation, the transport as a function from the built request and
the attempt number to that attempt's outcome.  `rand.Intn(n)` is modelled
by an oracle value reduced modulo the list length.  Durations (timeout,
retryInterval) have no behavioural content in a sequential embedding; the
number of `time.Sleep(retryInterval)` calls is recorded instead.
-/

namespace Consul

/-- `api.AgentService`: the fields the invoker reads. -/
structure AgentService where
  Address : String
  Port : Nat
  Tags : List String
deriving Repr, DecidableEq

/-- `api.ServiceEntry`: wraps the service record, as dereferenced by
`service.Service` in `Call`. -/
structure ServiceEntry where
  Service : AgentService
deriving Repr, DecidableEq

/-- `LoadBalanceStrategy` is a Go `int`; the three declared constants are
`Random = iota = 0`, `RoundRobin = 1`, `LeastConn = 2`, but any `Int` is a
legal value of the type. -/
def Random : Int := 0

/-- `RoundRobin LoadBalanceStrategy = 1`. -/
def RoundRobin : Int := 1

/-- `LeastConn LoadBalanceStrategy = 2`. -/
def LeastConn : Int := 2

/-- The `ServiceInvoker` fields that influence `Call`'s control flow.
`client`, `timeout`, `retryInterval` and `httpClient` are carried by the
oracles. `currentIndex` starts at 0 and is only incremented, so it is a
`Nat`. -/
structure ServiceInvoker where
  serviceName : String
  tags : List String
  strategy : Int
  retryCount : Nat
  currentIndex : Nat
deriving Repr, DecidableEq

/-- An HTTP request as built by `Call`: method, the URL
`http://address:port path`, headers (Go `map[string]string`, modelled as a
lookup function; a `nil` map is the everywhere-`none` function) and body. -/
structure HttpRequest where
  method : String
  url : String
  headers : String → Option String
  body : String

/-- An `*http.Response` as far as the invoker inspects it. -/
structure HttpResponse where
  StatusCode : Int
  Status : String
  Body : String
deriving Repr, DecidableEq

/-- The classified failures `Call`/`CallJSON` can return, one constructor
per distinct `fmt.Errorf` site (plus the nil-pointer panic that the
missing `default` branch of the selection `switch` makes reachable). -/
inductive CallError where
  /-- `failed to get service instances: %v` -/
  | lookupFailed (msg : String)
  /-- `no healthy service instances found for %s` -/
  | noInstancesAvailable (serviceName : String)
  /-- `no service instances found matching tags for %s` -/
  | noMatchingTaggedInstances (serviceName : String)
  /-- `service call failed after %d attempts: %v` -/
  | transportExhausted (attempts : Nat) (lastErr : String)
  /-- `service returned error status: %s` (CallJSON, non-2xx) -/
  | applicationError (statusCode : Int) (status : String)
  /-- runtime panic: `selectedService` stays `nil` in the URL build -/
  | panicNilDereference
deriving Repr, DecidableEq

/-- `containsAll(array, items)`: every `item` of `items` occurs in
`array` (the inner loop with the `found` flag is a linear membership
scan). -/
def containsAll (array : List String) (items : List String) : Bool :=
  items.all (fun item => array.contains item)

/-- The tag-filtering step of `Call`: when `len(i.tags) > 0`, keep the
entries whose `Service.Tags` contain all of `tags`; otherwise the list is
left untouched. -/
def eligibleList (tags : List String) (services : List ServiceEntry) :
    List ServiceEntry :=
  if tags.length > 0 then
    services.filter (fun s => containsAll s.Service.Tags tags)
  else
    services

/-- The selection `switch` of `Call` on a non-empty `services` list:
returns the selected entry (`none` when no case matches — the Go code then
dereferences a nil pointer) and the new `currentIndex` (incremented by the
`RoundRobin` case only). `randIndex % services.length` models
`rand.Intn(len(services))`, which returns a value in `[0, len)`. -/
def selectService (strategy : Int) (currentIndex randIndex : Nat)
    (services : List ServiceEntry) : Option ServiceEntry × Nat :=
  if strategy = Random then
    (services[randIndex % services.length]?, currentIndex)
  else if strategy = RoundRobin then
    (services[currentIndex % services.length]?, currentIndex + 1)
  else if strategy = LeastConn then
    (services[0]?, currentIndex)
  else
    (none, currentIndex)

/-- The URL `fmt.Sprintf("http://%s:%d%s", address, port, path)`. -/
def buildURL (address : String) (port : Nat) (path : String) : String :=
  "http://" ++ address ++ ":" ++ toString port ++ path

/-- The retry loop
`for attempt := 0; attempt <= i.retryCount; attempt++`:
each iteration calls `transport req attempt` (one `httpClient.Do(req)`);
on success the response is returned at once; on error the loop sleeps
`retryInterval` when `attempt < retryCount` and tries again; after the
last failed attempt it returns the aggregated
`transportExhausted (retryCount+1) lastErr`.  The result is paired with
the list of requests handed to the transport, in order, and the number of
sleeps performed. -/
def execWithRetry (transport : HttpRequest → Nat → Except String HttpResponse)
    (req : HttpRequest) (retryCount : Nat) (attempt : Nat) (lastErr : String) :
    Except CallError HttpResponse × List HttpRequest × Nat :=
  if h : attempt ≤ retryCount then
    match transport req attempt with
    | .ok resp => (.ok resp, [req], 0)
    | .error e =>
      let rest := execWithRetry transport req retryCount (attempt + 1) e
      (rest.1, req :: rest.2.1,
        rest.2.2 + (if attempt < retryCount then 1 else 0))
  else
    (.error (.transportExhausted (retryCount + 1) lastErr), [], 0)
termination_by retryCount + 1 - attempt
decreasing_by omega

/-- Everything observable about one `Call` invocation: its return value,
the requests given to the transport (one per attempt, in order), the
number of retry sleeps, the instance the selection produced, the request
built from it, and the invoker's `currentIndex` after the call. -/
structure CallOutcome where
  result : Except CallError HttpResponse
  trace : List HttpRequest
  sleeps : Nat
  selected : Option ServiceEntry
  request : Option HttpRequest
  finalCursor : Nat

/-- `ServiceInvoker.Call`:
lookup → emptiness check → tag filter → emptiness check → selection →
URL/request build → retry loop.  `lookup` is the outcome of
`i.client.GetHealthyServices(i.serviceName)` for this invocation (a fresh
snapshot each call), `randIndex` feeds the `Random` branch, `transport`
performs one `httpClient.Do`.  The `http.NewRequest` error branch is not
modelled: with the URL built by `buildURL` and a caller-supplied method it
only fails on a malformed method/URL, which no claim concerns. -/
def Call (i : ServiceInvoker) (lookup : Except String (List ServiceEntry))
    (randIndex : Nat)
    (transport : HttpRequest → Nat → Except String HttpResponse)
    (method path : String) (headers : String → Option String)
    (body : String) : CallOutcome :=
  match lookup with
  | .error e =>
    ⟨.error (.lookupFailed e), [], 0, none, none, i.currentIndex⟩
  | .ok services =>
    if services.length = 0 then
      ⟨.error (.noInstancesAvailable i.serviceName), [], 0, none, none,
        i.currentIndex⟩
    else
      let services := eligibleList i.tags services
      if services.length = 0 then
        ⟨.error (.noMatchingTaggedInstances i.serviceName), [], 0, none,
          none, i.currentIndex⟩
      else
        let sel := selectService i.strategy i.currentIndex randIndex services
        match sel.1 with
        | none =>
          ⟨.error .panicNilDereference, [], 0, none, none, sel.2⟩
        | some svc =>
          let req : HttpRequest :=
            ⟨method, buildURL svc.Service.Address svc.Service.Port path,
              headers, body⟩
          let r := execWithRetry transport req i.retryCount 0 ""
          ⟨r.1, r.2.1, r.2.2, some svc, some req, sel.2⟩

/-- The header mutation of `CallJSON`:
`headers["Content-Type"] = "application/json"` and
`headers["Accept"] = "application/json"` (a `nil` map is first replaced
by an empty one; with the functional representation that is the identity). -/
def jsonHeaders (headers : String → Option String) : String → Option String :=
  fun k =>
    if k = "Content-Type" then some "application/json"
    else if k = "Accept" then some "application/json"
    else headers k

/-- `ServiceInvoker.CallJSON`: marshal the body (`bodyBytes` is taken
already serialized; `json.Marshal` and the final `json.Decode` concern
payload encoding, which no claim touches), force the JSON headers, run
`Call`, and turn a non-2xx status (`StatusCode < 200 || StatusCode >= 300`)
into an application error with no further transport attempt.  Returned
with the underlying `CallOutcome` so attempts stay observable. -/
def CallJSON (i : ServiceInvoker) (lookup : Except String (List ServiceEntry))
    (randIndex : Nat)
    (transport : HttpRequest → Nat → Except String HttpResponse)
    (method path : String) (headers : String → Option String)
    (bodyBytes : String) : Except CallError HttpResponse × CallOutcome :=
  let out := Call i lookup randIndex transport method path
    (jsonHeaders headers) bodyBytes
  match out.result with
  | .error e => (.error e, out)
  | .ok resp =>
    if resp.StatusCode < 200 ∨ 300 ≤ resp.StatusCode then
      (.error (.applicationError resp.StatusCode resp.Status), out)
    else
      (.ok resp, out)

/-! ### Helper lemmas -/

theorem selectService_random (cursor randIndex : Nat)
    (services : List ServiceEntry) :
    selectService Random cursor randIndex services =
      (services[randIndex % services.length]?, cursor) := by
  simp [selectService]

theorem selectService_roundRobin (cursor randIndex : Nat)
    (services : List ServiceEntry) :
    selectService RoundRobin cursor randIndex services =
      (services[cursor % services.length]?, cursor + 1) := by
  simp [selectService, RoundRobin, Random, LeastConn]

theorem selectService_leastConn (cursor randIndex : Nat)
    (services : List ServiceEntry) :
    selectService LeastConn cursor randIndex services =
      (services[0]?, cursor) := by
  simp [selectService, RoundRobin, Random, LeastConn]

theorem selectService_unknown (strategy : Int) (cursor randIndex : Nat)
    (services : List ServiceEntry)
    (h0 : strategy ≠ Random) (h1 : strategy ≠ RoundRobin)
    (h2 : strategy ≠ LeastConn) :
    selectService strategy cursor randIndex services = (none, cursor) := by
  simp [selectService, h0, h1, h2]

/-- On a non-empty list, each of the three declared policies selects some
instance. -/
theorem selectService_isSome (strategy : Int) (cursor randIndex : Nat)
    (services : List ServiceEntry)
    (hvalid : strategy = Random ∨ strategy = RoundRobin ∨
      strategy = LeastConn)
    (hne : services ≠ []) :
    (selectService strategy cursor randIndex services).1.isSome := by
  have hpos : 0 < services.length := List.length_pos.mpr hne
  rcases hvalid with h | h | h <;> subst h
  · rw [selectService_random]
    rw [List.getElem?_eq_getElem (Nat.mod_lt _ hpos)]; rfl
  · rw [selectService_roundRobin]
    rw [List.getElem?_eq_getElem (Nat.mod_lt _ hpos)]; rfl
  · rw [selectService_leastConn]
    rw [List.getElem?_eq_getElem hpos]; rfl

/-- Unfolding `Call` past lookup, the emptiness checks and a successful
selection. -/
theorem Call_ok (i : ServiceInvoker) (services : List ServiceEntry)
    (randIndex : Nat)
    (transport : HttpRequest → Nat → Except String HttpResponse)
    (method path : String) (headers : String → Option String) (body : String)
    (hservices : services ≠ [])
    (helig : eligibleList i.tags services ≠ [])
    (svc : ServiceEntry)
    (hsel : (selectService i.strategy i.currentIndex randIndex
      (eligibleList i.tags services)).1 = some svc) :
    Call i (.ok services) randIndex transport method path headers body =
      ⟨(execWithRetry transport
          ⟨method, buildURL svc.Service.Address svc.Service.Port path,
            headers, body⟩ i.retryCount 0 "").1,
        (execWithRetry transport
          ⟨method, buildURL svc.Service.Address svc.Service.Port path,
            headers, body⟩ i.retryCount 0 "").2.1,
        (execWithRetry transport
          ⟨method, buildURL svc.Service.Address svc.Service.Port path,
            headers, body⟩ i.retryCount 0 "").2.2,
        some svc,
        some ⟨method, buildURL svc.Service.Address svc.Service.Port path,
          headers, body⟩,
        (selectService i.strategy i.currentIndex randIndex
          (eligibleList i.tags services)).2⟩ := by
  have h1 : ¬ services.length = 0 := by
    simpa [List.length_eq_zero] using hservices
  have h2 : ¬ (eligibleList i.tags services).length = 0 := by
    simpa [List.length_eq_zero] using helig
  simp only [Call, h1, h2, if_false, hsel]

/-- When every attempt the loop can make fails, the loop performs the
remaining `retryCount + 1 - attempt` attempts, sleeps after all but the
last, and aggregates the error of attempt `retryCount`. -/
theorem execWithRetry_all_fail
    (transport : HttpRequest → Nat → Except String HttpResponse)
    (req : HttpRequest) (errs : Nat → String) (retryCount : Nat) :
    ∀ attempt lastErr, attempt ≤ retryCount →
    (∀ n, n ≤ retryCount → transport req n = .error (errs n)) →
    execWithRetry transport req retryCount attempt lastErr =
      (.error (.transportExhausted (retryCount + 1) (errs retryCount)),
        List.replicate (retryCount + 1 - attempt) req,
        retryCount - attempt) := by
  have main : ∀ k attempt lastErr, retryCount - attempt = k →
      attempt ≤ retryCount →
      (∀ n, n ≤ retryCount → transport req n = .error (errs n)) →
      execWithRetry transport req retryCount attempt lastErr =
        (.error (.transportExhausted (retryCount + 1) (errs retryCount)),
          List.replicate (retryCount + 1 - attempt) req,
          retryCount - attempt) := by
    intro k
    induction k with
    | zero =>
      intro attempt lastErr hk hle ht
      have heq : attempt = retryCount := by omega
      subst heq
      have h1 : attempt + 1 - attempt = 1 := by omega
      rw [execWithRetry]
      simp [ht attempt (Nat.le_refl attempt)]
      rw [execWithRetry]
      simp [dif_neg (by omega : ¬ attempt + 1 ≤ attempt), h1]
    | succ k ih =>
      intro attempt lastErr hk hle ht
      have hlt : attempt < retryCount := by omega
      have h1 : retryCount + 1 - attempt =
          (retryCount + 1 - (attempt + 1)) + 1 := by omega
      have h2 : retryCount - (attempt + 1) + 1 = retryCount - attempt := by
        omega
      rw [execWithRetry]
      simp only [dif_pos hle, ht attempt hle]
      rw [ih (attempt + 1) (errs attempt) (by omega) (by omega) ht]
      simp only [if_pos hlt]
      rw [h1, List.replicate_succ, h2]
  intro attempt lastErr hle ht
  exact main (retryCount - attempt) attempt lastErr rfl hle ht

/-- When attempts before `k` fail and attempt `k ≤ retryCount` succeeds,
the loop returns that response after `k + 1 - attempt` further transport
calls, sleeping after each failure. -/
theorem execWithRetry_first_success
    (transport : HttpRequest → Nat → Except String HttpResponse)
    (req : HttpRequest) (resp : HttpResponse) (retryCount k : Nat)
    (hk : k ≤ retryCount)
    (hfail : ∀ n, n < k → ∃ e, transport req n = .error e)
    (hsucc : transport req k = .ok resp) :
    ∀ attempt lastErr, attempt ≤ k →
    execWithRetry transport req retryCount attempt lastErr =
      (.ok resp, List.replicate (k + 1 - attempt) req, k - attempt) := by
  have main : ∀ d attempt lastErr, k - attempt = d → attempt ≤ k →
      execWithRetry transport req retryCount attempt lastErr =
        (.ok resp, List.replicate (k + 1 - attempt) req, k - attempt) := by
    intro d
    induction d with
    | zero =>
      intro attempt lastErr hd hle
      have heq : attempt = k := by omega
      subst heq
      have h1 : attempt + 1 - attempt = 1 := by omega
      rw [execWithRetry]
      simp [dif_pos (by omega : attempt ≤ retryCount), hsucc, h1]
    | succ d ih =>
      intro attempt lastErr hd hle
      have hlt : attempt < k := by omega
      obtain ⟨e, he⟩ := hfail attempt hlt
      have h1 : k + 1 - attempt = (k + 1 - (attempt + 1)) + 1 := by omega
      have h2 : k - (attempt + 1) + 1 = k - attempt := by omega
      rw [execWithRetry]
      simp only [dif_pos (by omega : attempt ≤ retryCount), he]
      rw [ih (attempt + 1) e (by omega) (by omega)]
      simp only [if_pos (by omega : attempt < retryCount)]
      rw [h1, List.replicate_succ, h2]
  intro attempt lastErr hle
  exact main (k - attempt) attempt lastErr rfl hle

/-- Every request the retry loop hands to the transport is the one request
it was given: the loop never rebuilds the request. -/
theorem execWithRetry_trace_eq
    (transport : HttpRequest → Nat → Except String HttpResponse)
    (req : HttpRequest) (retryCount : Nat) :
    ∀ attempt lastErr r,
      r ∈ (execWithRetry transport req retryCount attempt lastErr).2.1 →
      r = req := by
  have main : ∀ k attempt lastErr, retryCount + 1 - attempt = k → ∀ r,
      r ∈ (execWithRetry transport req retryCount attempt lastErr).2.1 →
      r = req := by
    intro k
    induction k with
    | zero =>
      intro attempt lastErr hk r hr
      rw [execWithRetry, dif_neg (by omega : ¬ attempt ≤ retryCount)] at hr
      simp at hr
    | succ k ih =>
      intro attempt lastErr hk r hr
      rw [execWithRetry] at hr
      by_cases h : attempt ≤ retryCount
      · rw [dif_pos h] at hr
        cases htr : transport req attempt with
        | ok resp =>
          rw [htr] at hr
          simpa using hr
        | error e =>
          rw [htr] at hr
          simp only [List.mem_cons] at hr
          rcases hr with h1 | h1
          · exact h1
          · exact ih (attempt + 1) e (by omega) r h1
      · rw [dif_neg h] at hr
        simp at hr
  intro attempt lastErr r hr
  exact main (retryCount + 1 - attempt) attempt lastErr rfl r hr

/-- `containsAll array items` is the superset test: every element of
`items` is a member of `array`. -/
theorem containsAll_iff (array items : List String) :
    containsAll array items = true ↔ ∀ x ∈ items, x ∈ array := by
  simp [containsAll]

/-- The selection step moves the cursor forward by at most one,
whatever the strategy. -/
theorem selectService_cursor_bounds (strategy : Int) (c r : Nat)
    (l : List ServiceEntry) :
    c ≤ (selectService strategy c r l).2 ∧
      (selectService strategy c r l).2 ≤ c + 1 := by
  unfold selectService
  split_ifs <;> simp

/-- The `CallOutcome` of `CallJSON` is the one of the underlying `Call`
with the JSON headers forced, whichever way the status check goes. -/
theorem CallJSON_snd (i : ServiceInvoker)
    (lookup : Except String (List ServiceEntry)) (randIndex : Nat)
    (transport : HttpRequest → Nat → Except String HttpResponse)
    (method path : String) (headers : String → Option String)
    (bodyBytes : String) :
    (CallJSON i lookup randIndex transport method path headers
      bodyBytes).2 =
    Call i lookup randIndex transport method path (jsonHeaders headers)
      bodyBytes := by
  unfold CallJSON
  rcases h : (Call i lookup randIndex transport method path
      (jsonHeaders headers) bodyBytes).result with e | resp
  · simp [h]
  · simp only [h]
    split <;> rfl

/-! ### Concrete fixtures for witnesses and scenarios -/

/-- Instance A of the spec scenario: `A:8081` tagged `{api, v1}`. -/
def instA : ServiceEntry := ⟨⟨"10.0.0.1", 8081, ["api", "v1"]⟩⟩

/-- Instance B of the spec scenario: `B:8082` tagged `{api, v1}`. -/
def instB : ServiceEntry := ⟨⟨"10.0.0.2", 8082, ["api", "v1"]⟩⟩

/-- Instance C of the spec scenario: `C:8083` tagged `{api, v1}`. -/
def instC : ServiceEntry := ⟨⟨"10.0.0.3", 8083, ["api", "v1"]⟩⟩

/-- The fixed registry snapshot `[A, B, C]`. -/
def abcList : List ServiceEntry := [instA, instB, instC]

/-- A transport that answers every attempt with `200 OK`. -/
def okTransport : HttpRequest → Nat → Except String HttpResponse :=
  fun _ _ => .ok ⟨200, "200 OK", "{}"⟩

/-- An empty caller header map (`nil` Go map). -/
def noHeaders : String → Option String := fun _ => none

/-- The invoker of the spec scenario: round-robin over `svc` with
required tags `{api, v1}`, the default `retryCount = 3`, cursor as
given. -/
def rrInvoker (cursor : Nat) : ServiceInvoker :=
  ⟨"svc", ["api", "v1"], RoundRobin, 3, cursor⟩

/-- One invocation of the spec scenario at a given cursor. -/
def callABC (cursor : Nat) : CallOutcome :=
  Call (rrInvoker cursor) (.ok abcList) 0 okTransport "GET" "/ping"
    noHeaders ""

/-! ### Claim theorems -/

/-- C1: under the RoundRobin policy, `Call` selects the eligible instance
at index `cursor mod length of the eligible list` and increments the
cursor by one after selection; with the fixed list `[A, B, C]` and cursor
0, three consecutive calls select A, then B, then C. -/
theorem C1_roundRobin_cycle
    (i : ServiceInvoker) (services : List ServiceEntry) (randIndex : Nat)
    (transport : HttpRequest → Nat → Except String HttpResponse)
    (method path : String) (headers : String → Option String)
    (body : String)
    (hstrat : i.strategy = RoundRobin)
    (hservices : services ≠ [])
    (helig : eligibleList i.tags services ≠ []) :
    ((Call i (.ok services) randIndex transport method path headers
        body).selected =
      (eligibleList i.tags services)[i.currentIndex %
        (eligibleList i.tags services).length]?
    ∧ (Call i (.ok services) randIndex transport method path headers
        body).finalCursor = i.currentIndex + 1)
    ∧ ((callABC 0).selected = some instA
      ∧ (callABC (callABC 0).finalCursor).selected = some instB
      ∧ (callABC ((callABC
          (callABC 0).finalCursor)).finalCursor).selected = some instC) := by
  constructor
  · obtain ⟨svc, hsel⟩ := Option.isSome_iff_exists.mp
      (selectService_isSome i.strategy i.currentIndex randIndex _
        (Or.inr (Or.inl hstrat)) helig)
    rw [Call_ok i services randIndex transport method path headers body
      hservices helig svc hsel]
    rw [hstrat, selectService_roundRobin] at hsel
    refine ⟨hsel.symm, ?_⟩
    rw [hstrat, selectService_roundRobin]
  · exact ⟨rfl, rfl, rfl⟩

/-- C1 witness at the concrete scenario (cursor 5, list `[A, B, C]`). -/
theorem C1_roundRobin_cycle_witness :
    (((callABC 5).selected =
        (eligibleList (rrInvoker 5).tags abcList)[(rrInvoker 5).currentIndex %
          (eligibleList (rrInvoker 5).tags abcList).length]?
      ∧ (callABC 5).finalCursor = (rrInvoker 5).currentIndex + 1)
    ∧ ((callABC 0).selected = some instA
      ∧ (callABC (callABC 0).finalCursor).selected = some instB
      ∧ (callABC ((callABC
          (callABC 0).finalCursor)).finalCursor).selected = some instC)) :=
  C1_roundRobin_cycle (rrInvoker 5) abcList 0 okTransport "GET" "/ping"
    noHeaders "" rfl (by decide) (by decide)

/-- C2: with a non-empty required-tag list an instance passes the filter
iff its tag list contains every required tag; with an empty required-tag
list the filter keeps everything; and when no instance passes, `Call`
returns the no-matching-tagged-instances error, selects nothing and makes
no transport attempt. -/
theorem C2_tag_filter_superset
    (i : ServiceInvoker) (services : List ServiceEntry) (randIndex : Nat)
    (transport : HttpRequest → Nat → Except String HttpResponse)
    (method path : String) (headers : String → Option String)
    (body : String) :
    (i.tags ≠ [] → ∀ s, (s ∈ eligibleList i.tags services ↔
      s ∈ services ∧ ∀ t ∈ i.tags, t ∈ s.Service.Tags))
    ∧ (i.tags = [] → eligibleList i.tags services = services)
    ∧ (i.tags ≠ [] → services ≠ [] →
      (∀ s ∈ services, ¬ ∀ t ∈ i.tags, t ∈ s.Service.Tags) →
      (Call i (.ok services) randIndex transport method path headers
          body).result = .error (.noMatchingTaggedInstances i.serviceName)
      ∧ (Call i (.ok services) randIndex transport method path headers
          body).selected = none
      ∧ (Call i (.ok services) randIndex transport method path headers
          body).trace = []) := by
  have hfilter : i.tags ≠ [] → eligibleList i.tags services =
      services.filter (fun s => containsAll s.Service.Tags i.tags) := by
    intro h
    have : 0 < i.tags.length := List.length_pos.mpr h
    simp [eligibleList, this]
  refine ⟨?_, ?_, ?_⟩
  · intro h s
    rw [hfilter h, List.mem_filter, containsAll_iff]
  · intro h
    simp [eligibleList, h]
  · intro h hne hnone
    have hempty : eligibleList i.tags services = [] := by
      rw [hfilter h, List.filter_eq_nil_iff]
      intro s hs
      simpa [containsAll_iff] using hnone s hs
    have h1 : ¬ services.length = 0 := by
      simpa [List.length_eq_zero] using hne
    have h2 : (eligibleList i.tags services).length = 0 := by
      rw [hempty]; rfl
    refine ⟨?_, ?_, ?_⟩ <;>
      simp only [Call, h1, h2, if_false, if_true, ite_true, ite_false]

/-- C2 witness: required tags `{api, v2}` against the `{api, v1}`-tagged
list `[A, B, C]` — no instance qualifies, so `Call` fails with the
no-matching-tagged-instances error and zero transport attempts. -/
theorem C2_tag_filter_superset_witness :
    (Call ⟨"svc", ["api", "v2"], RoundRobin, 3, 0⟩ (.ok abcList) 0
        okTransport "GET" "/ping" noHeaders "").result =
      .error (.noMatchingTaggedInstances "svc")
    ∧ (Call ⟨"svc", ["api", "v2"], RoundRobin, 3, 0⟩ (.ok abcList) 0
        okTransport "GET" "/ping" noHeaders "").selected = none
    ∧ (Call ⟨"svc", ["api", "v2"], RoundRobin, 3, 0⟩ (.ok abcList) 0
        okTransport "GET" "/ping" noHeaders "").trace = [] :=
  (C2_tag_filter_superset ⟨"svc", ["api", "v2"], RoundRobin, 3, 0⟩
    abcList 0 okTransport "GET" "/ping" noHeaders "").2.2
    (by decide) (by decide) (by decide)

/-- C5: a successful lookup that returns zero instances makes `Call` fail
at once with the no-instances-available error — nothing selected, no
transport attempt — and that error is distinct from the
no-matching-tagged-instances error for every pair of service names. -/
theorem C5_no_instances_distinct
    (i : ServiceInvoker) (randIndex : Nat)
    (transport : HttpRequest → Nat → Except String HttpResponse)
    (method path : String) (headers : String → Option String)
    (body : String) :
    (Call i (.ok []) randIndex transport method path headers body).result
      = .error (.noInstancesAvailable i.serviceName)
    ∧ (Call i (.ok []) randIndex transport method path headers
        body).trace = []
    ∧ (Call i (.ok []) randIndex transport method path headers
        body).selected = none
    ∧ ∀ n₁ n₂ : String, CallError.noInstancesAvailable n₁ ≠
        CallError.noMatchingTaggedInstances n₂ :=
  ⟨rfl, rfl, rfl, fun _ _ h => CallError.noConfusion h⟩

/-- C8: under the LeastConnections policy `Call` selects the first
eligible instance and leaves the round-robin cursor untouched. -/
theorem C8_leastConn_first
    (i : ServiceInvoker) (services : List ServiceEntry) (randIndex : Nat)
    (transport : HttpRequest → Nat → Except String HttpResponse)
    (method path : String) (headers : String → Option String)
    (body : String)
    (hstrat : i.strategy = LeastConn)
    (hservices : services ≠ [])
    (helig : eligibleList i.tags services ≠ []) :
    (Call i (.ok services) randIndex transport method path headers
        body).selected = (eligibleList i.tags services)[0]?
    ∧ (Call i (.ok services) randIndex transport method path headers
        body).finalCursor = i.currentIndex := by
  obtain ⟨svc, hsel⟩ := Option.isSome_iff_exists.mp
    (selectService_isSome i.strategy i.currentIndex randIndex _
      (Or.inr (Or.inr hstrat)) helig)
  rw [Call_ok i services randIndex transport method path headers body
    hservices helig svc hsel]
  rw [hstrat, selectService_leastConn] at hsel
  refine ⟨hsel.symm, ?_⟩
  rw [hstrat, selectService_leastConn]

/-- C8 witness: the LeastConnections invoker over `[A, B, C]` picks A and
keeps the cursor at 7. -/
theorem C8_leastConn_first_witness :
    (Call ⟨"svc", [], LeastConn, 3, 7⟩ (.ok abcList) 0 okTransport "GET"
        "/ping" noHeaders "").selected =
      (eligibleList (⟨"svc", [], LeastConn, 3, 7⟩ :
        ServiceInvoker).tags abcList)[0]?
    ∧ (Call ⟨"svc", [], LeastConn, 3, 7⟩ (.ok abcList) 0 okTransport "GET"
        "/ping" noHeaders "").finalCursor = 7 :=
  C8_leastConn_first ⟨"svc", [], LeastConn, 3, 7⟩ abcList 0 okTransport
    "GET" "/ping" noHeaders "" rfl (by decide) (by decide)

/-- C9: for a strategy value outside the three declared constants, the
selection `switch` has no default case, so no instance is selected even
on a non-empty filtered list, no transport attempt is made, and the call
ends in the nil-pointer dereference of the URL build. -/
theorem C9_unknown_strategy_nil
    (i : ServiceInvoker) (services : List ServiceEntry) (randIndex : Nat)
    (transport : HttpRequest → Nat → Except String HttpResponse)
    (method path : String) (headers : String → Option String)
    (body : String)
    (h0 : i.strategy ≠ Random) (h1 : i.strategy ≠ RoundRobin)
    (h2 : i.strategy ≠ LeastConn)
    (hservices : services ≠ [])
    (helig : eligibleList i.tags services ≠ []) :
    (Call i (.ok services) randIndex transport method path headers
        body).selected = none
    ∧ (Call i (.ok services) randIndex transport method path headers
        body).result = .error .panicNilDereference
    ∧ (Call i (.ok services) randIndex transport method path headers
        body).trace = [] := by
  have hs1 : ¬ services.length = 0 := by
    simpa [List.length_eq_zero] using hservices
  have hs2 : ¬ (eligibleList i.tags services).length = 0 := by
    simpa [List.length_eq_zero] using helig
  have hsel := selectService_unknown i.strategy i.currentIndex randIndex
    (eligibleList i.tags services) h0 h1 h2
  refine ⟨?_, ?_, ?_⟩ <;>
    simp only [Call, hs1, hs2, if_false, hsel]

/-- C9 witness: strategy value 3 over the non-empty list `[A, B, C]`. -/
theorem C9_unknown_strategy_nil_witness :
    (Call ⟨"svc", [], 3, 3, 0⟩ (.ok abcList) 0 okTransport "GET" "/ping"
        noHeaders "").selected = none
    ∧ (Call ⟨"svc", [], 3, 3, 0⟩ (.ok abcList) 0 okTransport "GET" "/ping"
        noHeaders "").result = .error .panicNilDereference
    ∧ (Call ⟨"svc", [], 3, 3, 0⟩ (.ok abcList) 0 okTransport "GET" "/ping"
        noHeaders "").trace = [] :=
  C9_unknown_strategy_nil ⟨"svc", [], 3, 3, 0⟩ abcList 0 okTransport
    "GET" "/ping" noHeaders "" (by decide) (by decide) (by decide)
    (by decide) (by decide)

/-- A transport on which every attempt fails. -/
def failTransport : HttpRequest → Nat → Except String HttpResponse :=
  fun _ _ => .error "connection refused"

/-- A transport that fails on attempts 0 and 1 and succeeds from attempt
2 on. -/
def flakyTransport : HttpRequest → Nat → Except String HttpResponse :=
  fun _ n => if n < 2 then .error "connection refused"
    else .ok ⟨200, "200 OK", "{}"⟩

/-- C4: when all attempts fail at the transport level, `Call` makes
exactly `retryCount + 1` transport attempts with `retryCount` sleeps of
`retryInterval` in between and returns the aggregated failure carrying
the last transport error and the attempt count `retryCount + 1`; when
attempt `k ≤ retryCount` is the first to succeed, `Call` returns that
response after `k + 1` attempts. -/
theorem C4_retry_exhaustion
    (i : ServiceInvoker) (services : List ServiceEntry) (randIndex : Nat)
    (transport : HttpRequest → Nat → Except String HttpResponse)
    (method path : String) (headers : String → Option String)
    (body : String)
    (errs : Nat → String) (resp : HttpResponse) (k : Nat)
    (hvalid : i.strategy = Random ∨ i.strategy = RoundRobin ∨
      i.strategy = LeastConn)
    (hservices : services ≠ [])
    (helig : eligibleList i.tags services ≠ []) :
    ((∀ req n, n ≤ i.retryCount → transport req n = .error (errs n)) →
      (Call i (.ok services) randIndex transport method path headers
          body).result = .error (.transportExhausted (i.retryCount + 1)
            (errs i.retryCount))
      ∧ (Call i (.ok services) randIndex transport method path headers
          body).trace.length = i.retryCount + 1
      ∧ (Call i (.ok services) randIndex transport method path headers
          body).sleeps = i.retryCount)
    ∧ (k ≤ i.retryCount →
      (∀ req n, n < k → transport req n = .error (errs n)) →
      (∀ req, transport req k = .ok resp) →
      (Call i (.ok services) randIndex transport method path headers
          body).result = .ok resp
      ∧ (Call i (.ok services) randIndex transport method path headers
          body).trace.length = k + 1) := by
  obtain ⟨svc, hsel⟩ := Option.isSome_iff_exists.mp
    (selectService_isSome i.strategy i.currentIndex randIndex _ hvalid
      helig)
  rw [Call_ok i services randIndex transport method path headers body
    hservices helig svc hsel]
  constructor
  · intro ht
    rw [execWithRetry_all_fail transport _ errs i.retryCount 0 ""
      (Nat.zero_le _) (fun n hn => ht _ n hn)]
    exact ⟨rfl, by simp, rfl⟩
  · intro hk hfail hsucc
    rw [execWithRetry_first_success transport _ resp i.retryCount k hk
      (fun n hn => ⟨errs n, hfail _ n hn⟩) (hsucc _) 0 "" (Nat.zero_le _)]
    exact ⟨rfl, by simp⟩

/-- C4 witness: on `[A, B, C]` with `retryCount = 3`, an always-failing
transport yields the aggregated failure with attempt count 4 after 4
attempts and 3 sleeps, and a transport first succeeding on attempt 2
yields its response after 3 attempts. -/
theorem C4_retry_exhaustion_witness :
    ((Call (rrInvoker 0) (.ok abcList) 0 failTransport "GET" "/ping"
        noHeaders "").result =
      .error (.transportExhausted 4 "connection refused")
    ∧ (Call (rrInvoker 0) (.ok abcList) 0 failTransport "GET" "/ping"
        noHeaders "").trace.length = 4
    ∧ (Call (rrInvoker 0) (.ok abcList) 0 failTransport "GET" "/ping"
        noHeaders "").sleeps = 3)
    ∧ ((Call (rrInvoker 0) (.ok abcList) 0 flakyTransport "GET" "/ping"
        noHeaders "").result = .ok ⟨200, "200 OK", "{}"⟩
    ∧ (Call (rrInvoker 0) (.ok abcList) 0 flakyTransport "GET" "/ping"
        noHeaders "").trace.length = 3) :=
  ⟨(C4_retry_exhaustion (rrInvoker 0) abcList 0 failTransport "GET"
      "/ping" noHeaders "" (fun _ => "connection refused")
      ⟨200, "200 OK", "{}"⟩ 2 (Or.inr (Or.inl rfl)) (by decide)
      (by decide)).1 (fun _ _ _ => rfl),
  (C4_retry_exhaustion (rrInvoker 0) abcList 0 flakyTransport "GET"
    "/ping" noHeaders "" (fun _ => "connection refused")
    ⟨200, "200 OK", "{}"⟩ 2 (Or.inr (Or.inl rfl)) (by decide)
    (by decide)).2 (by decide)
    (fun _ n hn => by simp [flakyTransport, hn])
    (fun _ => by simp [flakyTransport])⟩

/-- C3: when the first transport attempt succeeds but the status is
outside 200–299, `CallJSON` returns the application error carrying that
status after exactly one transport attempt — a non-2xx response is never
retried. -/
theorem C3_no_retry_on_non2xx
    (i : ServiceInvoker) (services : List ServiceEntry) (randIndex : Nat)
    (transport : HttpRequest → Nat → Except String HttpResponse)
    (method path : String) (headers : String → Option String)
    (bodyBytes : String) (resp : HttpResponse)
    (hvalid : i.strategy = Random ∨ i.strategy = RoundRobin ∨
      i.strategy = LeastConn)
    (hservices : services ≠ [])
    (helig : eligibleList i.tags services ≠ [])
    (hfirst : ∀ req, transport req 0 = .ok resp)
    (hstatus : resp.StatusCode < 200 ∨ 300 ≤ resp.StatusCode) :
    (CallJSON i (.ok services) randIndex transport method path headers
        bodyBytes).1 =
      .error (.applicationError resp.StatusCode resp.Status)
    ∧ (CallJSON i (.ok services) randIndex transport method path headers
        bodyBytes).2.trace.length = 1 := by
  obtain ⟨svc, hsel⟩ := Option.isSome_iff_exists.mp
    (selectService_isSome i.strategy i.currentIndex randIndex _ hvalid
      helig)
  have hcall := Call_ok i services randIndex transport method path
    (jsonHeaders headers) bodyBytes hservices helig svc hsel
  have hexec := execWithRetry_first_success transport
    ⟨method, buildURL svc.Service.Address svc.Service.Port path,
      jsonHeaders headers, bodyBytes⟩ resp i.retryCount 0 (Nat.zero_le _)
    (fun n hn => absurd hn (Nat.not_lt_zero n)) (hfirst _) 0 ""
    (Nat.le_refl 0)
  constructor
  · simp only [CallJSON, hcall, hexec, if_pos hstatus]
  · rw [CallJSON_snd, hcall]
    simp [hexec]

/-- C3 witness: a transport answering `500` at once makes `CallJSON`
return the application error after a single attempt. -/
theorem C3_no_retry_on_non2xx_witness :
    (CallJSON (rrInvoker 0) (.ok abcList) 0
        (fun _ _ => .ok ⟨500, "500 Internal Server Error", ""⟩) "GET"
        "/ping" noHeaders "").1 =
      .error (.applicationError 500 "500 Internal Server Error")
    ∧ (CallJSON (rrInvoker 0) (.ok abcList) 0
        (fun _ _ => .ok ⟨500, "500 Internal Server Error", ""⟩) "GET"
        "/ping" noHeaders "").2.trace.length = 1 :=
  C3_no_retry_on_non2xx (rrInvoker 0) abcList 0
    (fun _ _ => .ok ⟨500, "500 Internal Server Error", ""⟩) "GET" "/ping"
    noHeaders "" ⟨500, "500 Internal Server Error", ""⟩
    (Or.inr (Or.inl rfl)) (by decide) (by decide) (fun _ => rfl)
    (by decide)

/-- C6: selection happens once per `Call`: one instance is selected, one
request is built from its address and port, every transport attempt is
made with exactly that request, and the cursor moves by at most one no
matter how many retry attempts occur. -/
theorem C6_selection_once_per_call
    (i : ServiceInvoker) (services : List ServiceEntry) (randIndex : Nat)
    (transport : HttpRequest → Nat → Except String HttpResponse)
    (method path : String) (headers : String → Option String)
    (body : String)
    (hvalid : i.strategy = Random ∨ i.strategy = RoundRobin ∨
      i.strategy = LeastConn)
    (hservices : services ≠ [])
    (helig : eligibleList i.tags services ≠ []) :
    ∃ svc, (Call i (.ok services) randIndex transport method path headers
        body).selected = some svc
      ∧ (Call i (.ok services) randIndex transport method path headers
          body).request = some ⟨method,
            buildURL svc.Service.Address svc.Service.Port path, headers,
            body⟩
      ∧ (∀ r ∈ (Call i (.ok services) randIndex transport method path
          headers body).trace, r = ⟨method,
            buildURL svc.Service.Address svc.Service.Port path, headers,
            body⟩)
      ∧ i.currentIndex ≤ (Call i (.ok services) randIndex transport
          method path headers body).finalCursor
      ∧ (Call i (.ok services) randIndex transport method path headers
          body).finalCursor ≤ i.currentIndex + 1 := by
  obtain ⟨svc, hsel⟩ := Option.isSome_iff_exists.mp
    (selectService_isSome i.strategy i.currentIndex randIndex _ hvalid
      helig)
  refine ⟨svc, ?_⟩
  rw [Call_ok i services randIndex transport method path headers body
    hservices helig svc hsel]
  refine ⟨rfl, rfl, ?_, ?_, ?_⟩
  · intro r hr
    exact execWithRetry_trace_eq transport _ i.retryCount 0 "" r hr
  · exact (selectService_cursor_bounds i.strategy i.currentIndex
      randIndex _).1
  · exact (selectService_cursor_bounds i.strategy i.currentIndex
      randIndex _).2

/-- C6 witness: on the round-robin scenario with an always-failing
transport there is a single selected instance, every attempt repeats the
same request, and the cursor moves by at most one. -/
theorem C6_selection_once_per_call_witness :
    ∃ svc, (Call (rrInvoker 0) (.ok abcList) 0 failTransport "GET"
        "/ping" noHeaders "").selected = some svc
      ∧ (Call (rrInvoker 0) (.ok abcList) 0 failTransport "GET" "/ping"
          noHeaders "").request = some ⟨"GET",
            buildURL svc.Service.Address svc.Service.Port "/ping",
            noHeaders, ""⟩
      ∧ (∀ r ∈ (Call (rrInvoker 0) (.ok abcList) 0 failTransport "GET"
          "/ping" noHeaders "").trace, r = ⟨"GET",
            buildURL svc.Service.Address svc.Service.Port "/ping",
            noHeaders, ""⟩)
      ∧ (rrInvoker 0).currentIndex ≤ (Call (rrInvoker 0) (.ok abcList) 0
          failTransport "GET" "/ping" noHeaders "").finalCursor
      ∧ (Call (rrInvoker 0) (.ok abcList) 0 failTransport "GET" "/ping"
          noHeaders "").finalCursor ≤ (rrInvoker 0).currentIndex + 1 :=
  C6_selection_once_per_call (rrInvoker 0) abcList 0 failTransport "GET"
    "/ping" noHeaders "" (Or.inr (Or.inl rfl)) (by decide) (by decide)

/-- C7: the request `CallJSON` builds targets the selected instance's
`address:port` plus the path, carries the caller's method and body, and
its headers are the caller's headers with `Content-Type` and `Accept`
forced to `application/json` and every other key untouched. -/
theorem C7_json_request_shape
    (i : ServiceInvoker) (services : List ServiceEntry) (randIndex : Nat)
    (transport : HttpRequest → Nat → Except String HttpResponse)
    (method path : String) (headers : String → Option String)
    (bodyBytes : String)
    (hvalid : i.strategy = Random ∨ i.strategy = RoundRobin ∨
      i.strategy = LeastConn)
    (hservices : services ≠ [])
    (helig : eligibleList i.tags services ≠ []) :
    ∃ svc req,
      (CallJSON i (.ok services) randIndex transport method path headers
        bodyBytes).2.selected = some svc
      ∧ (CallJSON i (.ok services) randIndex transport method path
          headers bodyBytes).2.request = some req
      ∧ req.url = buildURL svc.Service.Address svc.Service.Port path
      ∧ req.method = method
      ∧ req.body = bodyBytes
      ∧ req.headers "Content-Type" = some "application/json"
      ∧ req.headers "Accept" = some "application/json"
      ∧ ∀ k, k ≠ "Content-Type" → k ≠ "Accept" →
          req.headers k = headers k := by
  obtain ⟨svc, hsel⟩ := Option.isSome_iff_exists.mp
    (selectService_isSome i.strategy i.currentIndex randIndex _ hvalid
      helig)
  refine ⟨svc, ⟨method,
    buildURL svc.Service.Address svc.Service.Port path,
    jsonHeaders headers, bodyBytes⟩, ?_, ?_, rfl, rfl, rfl, ?_, ?_, ?_⟩
  · rw [CallJSON_snd, Call_ok i services randIndex transport method path
      (jsonHeaders headers) bodyBytes hservices helig svc hsel]
  · rw [CallJSON_snd, Call_ok i services randIndex transport method path
      (jsonHeaders headers) bodyBytes hservices helig svc hsel]
  · simp [jsonHeaders]
  · simp [jsonHeaders]
  · intro k h1 h2
    simp [jsonHeaders, h1, h2]

/-- C7 witness: the JSON call of the scenario targets
`http://10.0.0.1:8081/ping` with both JSON headers set and an untouched
unrelated header key. -/
theorem C7_json_request_shape_witness :
    ∃ svc req,
      (CallJSON (rrInvoker 0) (.ok abcList) 0 okTransport "GET" "/ping"
        noHeaders "").2.selected = some svc
      ∧ (CallJSON (rrInvoker 0) (.ok abcList) 0 okTransport "GET" "/ping"
          noHeaders "").2.request = some req
      ∧ req.url = buildURL svc.Service.Address svc.Service.Port "/ping"
      ∧ req.method = "GET"
      ∧ req.body = ""
      ∧ req.headers "Content-Type" = some "application/json"
      ∧ req.headers "Accept" = some "application/json"
      ∧ ∀ k, k ≠ "Content-Type" → k ≠ "Accept" →
          req.headers k = noHeaders k :=
  C7_json_request_shape (rrInvoker 0) abcList 0 okTransport "GET" "/ping"
    noHeaders "" (Or.inr (Or.inl rfl)) (by decide) (by decide)

end Consul
